import Mathlib

/-!
Verification of `generate.py` from the live2d_api repository.

The tool walks a directory tree, reads every `index.json` descriptor,
extracts a texture list from one of two recognized JSON shapes
(`extract_textures_from_json`), and writes the list as a pretty-printed
JSON array to a sibling `textures.cache` file, counting processed,
skipped and errored descriptors.  A preview mode scans without writing
and asks for confirmation before running the real generation pass.

The embedding below models parsed JSON documents as an inductive type,
Python's `in` / subscript operators (including the exceptions they can
raise on non-dict operands), the extractor, the serializer
(`json.dump(..., ensure_ascii=False, indent=4)`), the generation walk
over an abstract list of directories, the preview mode, and the
command-line dispatch of `main`.
-/

namespace Live2dGen

/-- A parsed JSON document, as produced by Python's `json.load`.
Numbers are modelled as integers (no claim involves numeric values).
Objects are association lists in insertion order; `json.load` yields
dicts, whose keys are unique. -/
inductive Json where
  | null
  | bool (b : Bool)
  | num (n : Int)
  | str (s : String)
  | arr (elems : List Json)
  | obj (members : List (String × Json))

/-- The Python exceptions the modelled operations can raise. -/
inductive PyErr where
  | typeError
  | keyError
deriving DecidableEq

/-- Dict lookup: the value stored under `key`, if present.  Parsed JSON
objects have unique keys, so taking the first matching entry agrees with
Python dict semantics. -/
def pyLookup (kvs : List (String × Json)) (key : String) : Option Json :=
  (kvs.find? (fun kv => kv.fst == key)).map (fun kv => kv.snd)

/-- `Json.isArr` holds exactly for arrays: Python's `isinstance(v, list)`. -/
def Json.isArr : Json → Bool
  | .arr _ => true
  | _ => false

/-- `Json.isObj` holds exactly for objects: Python's `isinstance(v, dict)`. -/
def Json.isObj : Json → Bool
  | .obj _ => true
  | _ => false

/-- Python's `key in data` for a string `key`: key membership on dicts,
element equality on lists (a string equals only an equal string),
substring test on strings, and a `TypeError` on the remaining
non-iterable values (`None`, booleans, numbers). -/
def pyContains (data : Json) (key : String) : Except PyErr Bool :=
  match data with
  | .obj kvs => .ok (pyLookup kvs key).isSome
  | .arr xs => .ok (xs.any (fun x => match x with | .str s => s == key | _ => false))
  | .str s => .ok (decide (List.IsInfix key.data s.data))
  | _ => .error .typeError

/-- Python's `data[key]` for a string `key`: dict lookup (a `KeyError`
when the key is absent), and a `TypeError` on every other value — in
particular `somelist["textures"]` raises because list indices must be
integers. -/
def pySubscript (data : Json) (key : String) : Except PyErr Json :=
  match data with
  | .obj kvs =>
    match pyLookup kvs key with
    | some v => .ok v
    | none => .error .keyError
  | _ => .error .typeError

/-- The format label returned alongside the texture list.  The source
returns the strings `"标准格式"`, `"Cubism 3.0+ 格式"` and `"未知格式"`;
the spec calls them "standard", "cubism-3-plus" and "unrecognized". -/
inductive FormatLabel where
  | standard
  | cubism3plus
  | unrecognized
deriving DecidableEq

/-- Second branch of the extractor (`generate.py` lines 21-27): if
`'FileReferences' in data and isinstance(data['FileReferences'], dict)`
and the nested dict has `'Textures'` mapped to a list, return that list
with the Cubism 3.0+ label, else fall through to `(None, "未知格式")`. -/
def extractRule2 (data : Json) : Except PyErr (Option (List Json) × FormatLabel) :=
  match pyContains data "FileReferences" with
  | .error e => .error e
  | .ok false => .ok (none, .unrecognized)
  | .ok true =>
    match pySubscript data "FileReferences" with
    | .error e => .error e
    | .ok fr =>
      match fr with
      | .obj frkvs =>
        match pyContains (.obj frkvs) "Textures" with
        | .error e => .error e
        | .ok false => .ok (none, .unrecognized)
        | .ok true =>
          match pySubscript (.obj frkvs) "Textures" with
          | .error e => .error e
          | .ok (.arr ts) => .ok (some ts, .cubism3plus)
          | .ok _ => .ok (none, .unrecognized)
      | _ => .ok (none, .unrecognized)

/-- `extract_textures_from_json` (`generate.py` lines 6-27).  Evaluation
follows Python's short-circuiting `if 'textures' in data and
isinstance(data['textures'], list)`: the membership test runs first and
the subscript only when it succeeded; either may raise, which the
`Except` layer records. -/
def extract_textures_from_json (data : Json) :
    Except PyErr (Option (List Json) × FormatLabel) :=
  match pyContains data "textures" with
  | .error e => .error e
  | .ok false => extractRule2 data
  | .ok true =>
    match pySubscript data "textures" with
    | .error e => .error e
    | .ok (.arr ts) => .ok (some ts, .standard)
    | .ok _ => extractRule2 data

/-- Lowercase hexadecimal digit, for `\uXXXX` escapes. -/
def hexDigit (n : Nat) : Char :=
  if n < 10 then Char.ofNat (48 + n) else Char.ofNat (87 + n)

/-- Four lowercase hexadecimal digits, as Python's json module emits in
`\uXXXX` escapes. -/
def hex4 (n : Nat) : String :=
  String.mk [hexDigit (n / 4096 % 16), hexDigit (n / 256 % 16),
    hexDigit (n / 16 % 16), hexDigit (n % 16)]

/-- How `json.dump(..., ensure_ascii=False)` renders one character of a
string: short escapes for the quote, the backslash and the usual control
characters, `\uXXXX` for the remaining characters below U+0020, and
every other character verbatim (non-ASCII included, since
`ensure_ascii=False`). -/
def pyEscapeChar (c : Char) : String :=
  if c = '"' then "\\\""
  else if c = '\\' then "\\\\"
  else if c = '\x08' then "\\b"
  else if c = '\x09' then "\\t"
  else if c = '\x0a' then "\\n"
  else if c = '\x0c' then "\\f"
  else if c = '\x0d' then "\\r"
  else if c.toNat < 32 then "\\u" ++ hex4 c.toNat
  else String.singleton c

/-- A JSON string literal as the json module writes it. -/
def pyQuoteStr (s : String) : String :=
  "\"" ++ String.join (s.data.map pyEscapeChar) ++ "\""

/-- `indent=4`: four spaces per nesting level. -/
def indentStr (lvl : Nat) : String := String.mk (List.replicate (4 * lvl) ' ')

mutual

/-- `json.dump(v, f, ensure_ascii=False, indent=4)` at nesting level
`lvl`: scalars as their Python representations, empty containers on one
line, non-empty containers with one indented item per line, items
separated by `,\n` and members using the `": "` key separator. -/
def pyJsonDump : Json → Nat → String
  | .null, _ => "null"
  | .bool true, _ => "true"
  | .bool false, _ => "false"
  | .num n, _ => toString n
  | .str s, _ => pyQuoteStr s
  | .arr [], _ => "[]"
  | .arr (x :: xs), lvl =>
    "[\n" ++ String.intercalate ",\n" (pyDumpItems (x :: xs) (lvl + 1)) ++
      "\n" ++ indentStr lvl ++ "]"
  | .obj [], _ => "\x7b\x7d"
  | .obj (kv :: kvs), lvl =>
    "\x7b\n" ++ String.intercalate ",\n" (pyDumpMembers (kv :: kvs) (lvl + 1)) ++
      "\n" ++ indentStr lvl ++ "\x7d"

/-- The rendered items of an array, each prefixed by its indentation. -/
def pyDumpItems : List Json → Nat → List String
  | [], _ => []
  | x :: xs, lvl => (indentStr lvl ++ pyJsonDump x lvl) :: pyDumpItems xs lvl

/-- The rendered members of an object, each prefixed by its indentation. -/
def pyDumpMembers : List (String × Json) → Nat → List String
  | [], _ => []
  | (k, v) :: kvs, lvl =>
    (indentStr lvl ++ pyQuoteStr k ++ ": " ++ pyJsonDump v lvl) :: pyDumpMembers kvs lvl

end

/-- The result of reading and JSON-parsing one `index.json` file:
the read itself can raise (caught by the walk's generic handler), the
content can fail to parse (`json.JSONDecodeError`), or it parses to a
document. -/
inductive FileRead where
  | readFail
  | badJson
  | parsed (j : Json)

/-- One directory visited by `os.walk`: its path, its `index.json` file
when present (with the outcome of reading it) and the current content of
its `textures.cache` file when that file exists. -/
structure Dir where
  path : String
  index : Option FileRead
  cache : Option String

/-- The walk's three counters, named as in the source. -/
structure Counts where
  processed_count : Nat
  skipped_count : Nat
  error_count : Nat
deriving DecidableEq

/-- What happened to one visited directory: which counter it bumped,
or `noIndex` when the directory holds no `index.json` and the loop body
is skipped entirely. -/
inductive Outcome where
  | processed
  | skipped
  | errored
  | noIndex
deriving DecidableEq

/-- Increment the counter selected by the outcome. -/
def bumpCounts (c : Counts) : Outcome → Counts
  | .processed => ⟨c.processed_count + 1, c.skipped_count, c.error_count⟩
  | .skipped => ⟨c.processed_count, c.skipped_count + 1, c.error_count⟩
  | .errored => ⟨c.processed_count, c.skipped_count, c.error_count + 1⟩
  | .noIndex => c

/-- The exact bytes the cache write produces for a texture list:
`json.dump(textures, f, ensure_ascii=False, indent=4)` at top level. -/
def dumpTextures (ts : List Json) : String := pyJsonDump (Json.arr ts) 0

/-- Processing of a single visited directory (`generate.py` lines
51-96): read and parse `index.json`, run the extractor, and either
write `textures.cache` (extractor returned a list), skip (it returned
`None`), or catch the raised exception and count an error.  Returns the
cache content written, if any, together with the counter outcome. -/
def stepDir (d : Dir) : Option String × Outcome :=
  match d.index with
  | none => (none, .noIndex)
  | some .readFail => (none, .errored)
  | some .badJson => (none, .errored)
  | some (.parsed j) =>
    match extract_textures_from_json j with
    | .error _ => (none, .errored)
    | .ok (some ts, _) => (some (dumpTextures ts), .processed)
    | .ok (none, _) => (none, .skipped)

/-- Effect of the write on the directory: `textures.cache` is created or
overwritten; `index.json` is untouched. -/
def applyWrite (d : Dir) : Option String → Dir
  | some s => ⟨d.path, d.index, some s⟩
  | none => d

/-- `generate_textures_cache` (`generate.py` lines 29-105) over the
abstract walk: the input list is the sequence of directories `os.walk`
visits.  Writing a `textures.cache` file never adds, removes or changes
any `index.json`, so later iterations see the original tree, and the
counter increments commute, so the loop is rendered as structural
recursion; the result is the updated directory list and the final
counters. -/
def generate_textures_cache : List Dir → List Dir × Counts
  | [] => ([], ⟨0, 0, 0⟩)
  | d :: ds =>
    (applyWrite d (stepDir d).1 :: (generate_textures_cache ds).1,
      bumpCounts (generate_textures_cache ds).2 (stepDir d).2)

/-- One entry of preview mode's `found_files` list. -/
structure FoundFile where
  path : String
  format : FormatLabel
  texture_count : Nat
  textures : List Json

/-- Preview mode's scan pass (`generate.py` lines 120-141): collect the
recognized descriptors; the bare `except: pass` silently drops every
directory whose read, parse or extraction fails. -/
def preview_scan (dirs : List Dir) : List FoundFile :=
  dirs.filterMap fun d =>
    match d.index with
    | some (.parsed j) =>
      match extract_textures_from_json j with
      | .ok (some ts, fmt) => some ⟨d.path, fmt, ts.length, ts⟩
      | _ => none
    | _ => none

/-- Python's `str.strip()` with no argument: remove leading and
trailing whitespace. -/
def pyStrip (s : String) : String :=
  String.mk
    (((s.data.dropWhile Char.isWhitespace).reverse.dropWhile Char.isWhitespace).reverse)

/-- Python's `str.lower()`: lowercase each character (the responses of
interest are ASCII or unaffected). -/
def pyLower (s : String) : String := String.mk (s.data.map Char.toLower)

/-- Python `response.strip().lower() in ['y', 'yes', '是']`
(`generate.py` lines 153-154). -/
def affirmative (response : String) : Bool :=
  ["y", "yes", "是"].contains (pyLower (pyStrip response))

/-- Outcome of a preview-mode invocation: the directory tree afterwards,
whether the confirmation prompt was shown, and the generation counters
when the generation pass ran. -/
structure PreviewResult where
  dirs : List Dir
  prompted : Bool
  generated : Option Counts

/-- `preview_mode` (`generate.py` lines 107-161): scan without writing;
when nothing was found, report and exit without prompting; otherwise
prompt, and only an affirmative response triggers the real
`generate_textures_cache` pass over the same tree. -/
def preview_mode (dirs : List Dir) (response : String) : PreviewResult :=
  let found := preview_scan dirs
  if found.isEmpty then ⟨dirs, false, none⟩
  else if affirmative response then
    ⟨(generate_textures_cache dirs).1, true, some (generate_textures_cache dirs).2⟩
  else ⟨dirs, true, none⟩

/-- Python's `arg.startswith('-')`: the first character, if any, is a
dash. -/
def startsWithDash (a : String) : Bool :=
  match a.data with
  | c :: _ => c == '-'
  | [] => false

/-- The three things `main` can do after looking at the arguments. -/
inductive MainAction where
  | showHelp
  | runGenerate (target : String)
  | runPreview (target : String)
deriving DecidableEq

/-- Command-line dispatch of `main` (`generate.py` lines 163-200).
`argv` is the full `sys.argv`, program name included.  Help is shown
only when `sys.argv[1]` is `-h` or `--help`; `--preview` / `-p` is
looked up in the whole of `sys.argv`; the target directory is the first
element of `sys.argv[1:]` not starting with `-`, defaulting to `"."`;
with no arguments beyond the program name, generation runs on `"."`. -/
def main_action : List String → MainAction
  | prog :: arg1 :: rest =>
    if arg1 = "-h" ∨ arg1 = "--help" then .showHelp
    else
      let argv := prog :: arg1 :: rest
      let preview := argv.contains "--preview" || argv.contains "-p"
      let target := ((arg1 :: rest).find? (fun a => !startsWithDash a)).getD "."
      if preview then .runPreview target else .runGenerate target
  | _ => .runGenerate "."

/-- End-to-end effect of `main` on the directory tree (`dirs` stands for
the tree under the chosen target): the help branch returns before any
scan, so the tree is untouched; the other branches run the generation or
preview pass. -/
def run_main (argv : List String) (dirs : List Dir) (response : String) : List Dir :=
  match main_action argv with
  | .showHelp => dirs
  | .runGenerate _ => (generate_textures_cache dirs).1
  | .runPreview _ => (preview_mode dirs response).dirs

/-! ### Helper lemmas -/

/-- Componentwise sum of two counter triples. -/
def addCounts (a b : Counts) : Counts :=
  ⟨a.processed_count + b.processed_count, a.skipped_count + b.skipped_count,
    a.error_count + b.error_count⟩

theorem bumpCounts_addCounts (a b : Counts) (o : Outcome) :
    addCounts (bumpCounts a o) b = bumpCounts (addCounts a b) o := by
  cases o <;> simp [addCounts, bumpCounts, Counts.mk.injEq] <;> omega

theorem addCounts_zero_left (c : Counts) : addCounts ⟨0, 0, 0⟩ c = c := by
  simp [addCounts]

/-- The generation walk writes exactly `applyWrite` pointwise over the
visited directories. -/
theorem gen_fst_map (dirs : List Dir) :
    (generate_textures_cache dirs).1 =
      dirs.map (fun e => applyWrite e (stepDir e).1) := by
  induction dirs with
  | nil => rfl
  | cons d ds ih => simp [generate_textures_cache, ih]

theorem gen_fst_append (l1 l2 : List Dir) :
    (generate_textures_cache (l1 ++ l2)).1 =
      (generate_textures_cache l1).1 ++ (generate_textures_cache l2).1 := by
  simp [gen_fst_map]

theorem gen_snd_append (l1 l2 : List Dir) :
    (generate_textures_cache (l1 ++ l2)).2 =
      addCounts (generate_textures_cache l1).2 (generate_textures_cache l2).2 := by
  induction l1 with
  | nil => simp [generate_textures_cache, addCounts_zero_left]
  | cons d ds ih =>
    simp [generate_textures_cache, ih, bumpCounts_addCounts]

theorem sum_bumpCounts (c : Counts) (o : Outcome) :
    (bumpCounts c o).processed_count + (bumpCounts c o).skipped_count +
        (bumpCounts c o).error_count =
      c.processed_count + c.skipped_count + c.error_count +
        (if o = Outcome.noIndex then 0 else 1) := by
  cases o <;> simp [bumpCounts] <;> omega

theorem stepDir_noIndex_iff (d : Dir) :
    (stepDir d).2 = Outcome.noIndex ↔ d.index = none := by
  cases hi : d.index with
  | none => simp [stepDir, hi]
  | some fr =>
    cases fr with
    | readFail => simp [stepDir, hi]
    | badJson => simp [stepDir, hi]
    | parsed j =>
      simp only [stepDir, hi]
      rcases hx : extract_textures_from_json j with e | ⟨ts?, lbl⟩
      · simp
      · cases ts? <;> simp

/-- Rewriting `textures.cache` does not touch `index.json`, so the
per-directory processing is unchanged. -/
theorem stepDir_applyWrite (d : Dir) (w : Option String) :
    stepDir (applyWrite d w) = stepDir d := by
  cases w <;> rfl

theorem applyWrite_applyWrite (d : Dir) (w : Option String) :
    applyWrite (applyWrite d w) w = applyWrite d w := by
  cases w <;> rfl

/-- On a JSON object the second extraction rule never raises: both
membership tests run on dicts and both subscripts are guarded by a
successful membership test. -/
theorem extractRule2_obj_ok (kvs : List (String × Json)) :
    ∃ r, extractRule2 (Json.obj kvs) = .ok r := by
  simp only [extractRule2, pyContains, pySubscript]
  cases hf : pyLookup kvs "FileReferences" with
  | none => simp
  | some fr =>
    cases fr with
    | obj frkvs =>
      simp only [Option.isSome_some]
      cases ht : pyLookup frkvs "Textures" with
      | none => simp
      | some w => cases w <;> simp
    | null => simp
    | bool b => simp
    | num n => simp
    | str s => simp
    | arr xs => simp

/-- On a JSON object the extractor never raises. -/
theorem extract_obj_ok (kvs : List (String × Json)) :
    ∃ r, extract_textures_from_json (Json.obj kvs) = .ok r := by
  simp only [extract_textures_from_json, pyContains, pySubscript]
  cases ht : pyLookup kvs "textures" with
  | none => simpa using extractRule2_obj_ok kvs
  | some v =>
    cases v with
    | arr ts => simp
    | null => simpa using extractRule2_obj_ok kvs
    | bool b => simpa using extractRule2_obj_ok kvs
    | num n => simpa using extractRule2_obj_ok kvs
    | str s => simpa using extractRule2_obj_ok kvs
    | obj ms => simpa using extractRule2_obj_ok kvs

/-! ### Claim theorems -/

/-- C1: whenever the parsed descriptor is a JSON object whose key
`"textures"` holds a sequence, the extractor returns exactly that
sequence (order and duplicates preserved) with the standard-format
label, regardless of any other keys present — the first rule wins even
when a valid `"FileReferences"`/`"Textures"` shape is also present. -/
theorem extract_standard_format (kvs : List (String × Json)) (ts : List Json)
    (h : pyLookup kvs "textures" = some (Json.arr ts)) :
    extract_textures_from_json (Json.obj kvs) =
      .ok (some ts, FormatLabel.standard) := by
  simp [extract_textures_from_json, pyContains, pySubscript, h]

/-- Witness for C1: a descriptor carrying both a duplicate-bearing
top-level `"textures"` array and a valid nested Cubism shape still
yields the top-level array with the standard label. -/
theorem extract_standard_format_witness :
    pyLookup
        [("FileReferences", Json.obj [("Textures", Json.arr [Json.str "x.png"])]),
          ("textures", Json.arr [Json.str "a.png", Json.str "a.png"])] "textures" =
        some (Json.arr [Json.str "a.png", Json.str "a.png"]) ∧
    extract_textures_from_json
        (Json.obj
          [("FileReferences", Json.obj [("Textures", Json.arr [Json.str "x.png"])]),
            ("textures", Json.arr [Json.str "a.png", Json.str "a.png"])]) =
      .ok (some [Json.str "a.png", Json.str "a.png"], FormatLabel.standard) :=
  ⟨rfl, extract_standard_format _ _ rfl⟩

/-- C2: whenever the parsed descriptor is a JSON object with no
top-level sequence-valued `"textures"` key but with `"FileReferences"`
mapped to an object whose `"Textures"` key holds a sequence, the
extractor returns exactly that nested sequence with the Cubism 3.0+
label. -/
theorem extract_cubism_format (kvs frkvs : List (String × Json)) (ts : List Json)
    (h1 : ∀ v, pyLookup kvs "textures" = some v → v.isArr = false)
    (h2 : pyLookup kvs "FileReferences" = some (Json.obj frkvs))
    (h3 : pyLookup frkvs "Textures" = some (Json.arr ts)) :
    extract_textures_from_json (Json.obj kvs) =
      .ok (some ts, FormatLabel.cubism3plus) := by
  have hrule2 : extractRule2 (Json.obj kvs) = .ok (some ts, .cubism3plus) := by
    simp [extractRule2, pyContains, pySubscript, h2, h3]
  cases hv : pyLookup kvs "textures" with
  | none => simp [extract_textures_from_json, pyContains, pySubscript, hv, hrule2]
  | some v =>
    have hna := h1 v hv
    cases v <;>
      simp_all [extract_textures_from_json, pyContains, pySubscript, Json.isArr, hrule2]

/-- Witness for C2: `{"FileReferences": {"Textures": ["t0.png"]}}`
extracts to `["t0.png"]` with the Cubism 3.0+ label. -/
theorem extract_cubism_format_witness :
    extract_textures_from_json
        (Json.obj [("FileReferences", Json.obj [("Textures", Json.arr [Json.str "t0.png"])])]) =
      .ok (some [Json.str "t0.png"], FormatLabel.cubism3plus) :=
  extract_cubism_format _ _ _ (fun _ hv => nomatch hv) rfl rfl

/-- C4: on a JSON object the extractor never raises, and when every
relevant key that exists has a wrongly-typed value (top-level
`"textures"` not a sequence, nested `"Textures"` not a sequence, a
non-object `"FileReferences"` being rejected unconditionally), each rule
falls through and the extractor returns absent with the unrecognized
label. -/
theorem extract_wrong_type_falls_through (kvs : List (String × Json)) :
    (∃ r, extract_textures_from_json (Json.obj kvs) = .ok r) ∧
    ((∀ v, pyLookup kvs "textures" = some v → v.isArr = false) →
      (∀ frkvs, pyLookup kvs "FileReferences" = some (Json.obj frkvs) →
        ∀ w, pyLookup frkvs "Textures" = some w → w.isArr = false) →
      extract_textures_from_json (Json.obj kvs) =
        .ok (none, FormatLabel.unrecognized)) := by
  refine ⟨extract_obj_ok kvs, fun h1 h2 => ?_⟩
  have hrule2 : extractRule2 (Json.obj kvs) = .ok (none, .unrecognized) := by
    simp only [extractRule2, pyContains, pySubscript]
    cases hf : pyLookup kvs "FileReferences" with
    | none => simp
    | some fr =>
      cases fr with
      | obj frkvs =>
        simp only [Option.isSome_some]
        cases ht : pyLookup frkvs "Textures" with
        | none => simp
        | some w =>
          have := h2 frkvs hf w ht
          cases w <;> simp_all [Json.isArr]
      | null => simp
      | bool b => simp
      | num n => simp
      | str s => simp
      | arr xs => simp
  cases hv : pyLookup kvs "textures" with
  | none => simp [extract_textures_from_json, pyContains, pySubscript, hv, hrule2]
  | some v =>
    have hna := h1 v hv
    cases v <;>
      simp_all [extract_textures_from_json, pyContains, pySubscript, Json.isArr, hrule2]

/-- Witness for C4: both relevant keys exist with wrongly-typed values
(`"textures"` a string, nested `"Textures"` a string) and the extractor
returns absent with the unrecognized label instead of raising. -/
theorem extract_wrong_type_falls_through_witness :
    extract_textures_from_json
        (Json.obj [("textures", Json.str "t"),
          ("FileReferences", Json.obj [("Textures", Json.str "u")])]) =
      .ok (none, FormatLabel.unrecognized) :=
  (extract_wrong_type_falls_through _).2
    (fun v hv => by cases Option.some.inj hv; rfl)
    (fun frkvs hf w hw => by
      cases Json.obj.inj (Option.some.inj hf)
      cases Option.some.inj hw
      rfl)

/-- C10: the extractor is exception-free on JSON objects, but on the
parsed document `["textures"]` — a list, where the membership test
succeeds and the string subscript then raises `TypeError` — it raises,
and the generation walk counts such a descriptor as an error. -/
theorem extract_raises_on_nonobject :
    (∀ kvs : List (String × Json),
        ∃ r, extract_textures_from_json (Json.obj kvs) = .ok r) ∧
    extract_textures_from_json (Json.arr [Json.str "textures"]) =
      .error PyErr.typeError ∧
    stepDir ⟨"model", some (.parsed (Json.arr [Json.str "textures"])), none⟩ =
      (none, Outcome.errored) :=
  ⟨extract_obj_ok, rfl, rfl⟩

/-- C3: the generation walk updates each visited directory exactly by
the per-directory write; a cache file is written if and only if the
descriptor parsed and the extractor recognized one of the two shapes; a
recognized empty texture sequence still writes a cache file containing
`[]`; an unrecognized descriptor writes nothing and counts as
skipped. -/
theorem cache_write_iff_recognized (dirs : List Dir) (d : Dir) :
    (generate_textures_cache dirs).1 =
        dirs.map (fun e => applyWrite e (stepDir e).1) ∧
    ((stepDir d).1.isSome = true ↔
      ∃ j ts lbl, d.index = some (FileRead.parsed j) ∧
        extract_textures_from_json j = .ok (some ts, lbl)) ∧
    (∀ j lbl, d.index = some (FileRead.parsed j) →
      extract_textures_from_json j = .ok (some [], lbl) →
      stepDir d = (some "[]", Outcome.processed)) ∧
    (∀ j lbl, d.index = some (FileRead.parsed j) →
      extract_textures_from_json j = .ok (none, lbl) →
      stepDir d = (none, Outcome.skipped)) := by
  refine ⟨gen_fst_map dirs, ?_, ?_, ?_⟩
  · cases hi : d.index with
    | none => simp [stepDir, hi]
    | some fr =>
      cases fr with
      | readFail => simp [stepDir, hi]
      | badJson => simp [stepDir, hi]
      | parsed j =>
        simp only [stepDir, hi]
        rcases hx : extract_textures_from_json j with e | ⟨ts?, lbl⟩
        · simp [hx]
        · cases ts? <;> simp_all
  · intro j lbl hi hx
    simp [stepDir, hi, hx, dumpTextures, pyJsonDump]
  · intro j lbl hi hx
    simp [stepDir, hi, hx]

/-- Witness for C3: a recognized descriptor whose texture list is empty
still produces a write, of the two-byte array `[]`, counted as
processed. -/
theorem cache_write_iff_recognized_witness :
    stepDir ⟨"model", some (.parsed (Json.obj [("textures", Json.arr [])])), none⟩ =
      (some "[]", Outcome.processed) :=
  (cache_write_iff_recognized [] _).2.2.1 _ FormatLabel.standard rfl rfl

/-- C5: a descriptor whose contents fail to parse as JSON gets no cache
write and is counted as errored (not skipped); inserting it anywhere in
the walk raises the error counter by exactly one, leaves the other two
counters unchanged, and the remaining directories are processed exactly
as before — a parse failure is never fatal to the run. -/
theorem parse_error_counted (d : Dir) (pre post : List Dir)
    (h : d.index = some FileRead.badJson) :
    stepDir d = (none, Outcome.errored) ∧
    (generate_textures_cache (pre ++ d :: post)).2.error_count =
      (generate_textures_cache (pre ++ post)).2.error_count + 1 ∧
    (generate_textures_cache (pre ++ d :: post)).2.processed_count =
      (generate_textures_cache (pre ++ post)).2.processed_count ∧
    (generate_textures_cache (pre ++ d :: post)).2.skipped_count =
      (generate_textures_cache (pre ++ post)).2.skipped_count ∧
    (generate_textures_cache (pre ++ d :: post)).1 =
      (generate_textures_cache pre).1 ++ d :: (generate_textures_cache post).1 := by
  have hstep : stepDir d = (none, Outcome.errored) := by simp [stepDir, h]
  have hcons :
      generate_textures_cache (d :: post) =
        (d :: (generate_textures_cache post).1,
          bumpCounts (generate_textures_cache post).2 Outcome.errored) := by
    simp [generate_textures_cache, hstep, applyWrite]
  refine ⟨hstep, ?_, ?_, ?_, ?_⟩ <;>
    simp [gen_snd_append, gen_fst_append, hcons, addCounts, bumpCounts]
  omega

/-- Witness for C5: a malformed descriptor between two well-formed ones
adds one to the error counter only, and both neighbours are still
processed. -/
theorem parse_error_counted_witness :
    stepDir ⟨"bad", some FileRead.badJson, none⟩ = (none, Outcome.errored) ∧
    (generate_textures_cache
        [⟨"a", some (.parsed (Json.obj [("textures", Json.arr [])])), none⟩,
          ⟨"bad", some FileRead.badJson, none⟩,
          ⟨"b", some (.parsed (Json.obj [("textures", Json.arr [])])), none⟩]).2 =
      ⟨2, 0, 1⟩ :=
  ⟨(parse_error_counted ⟨"bad", some FileRead.badJson, none⟩
      [⟨"a", some (.parsed (Json.obj [("textures", Json.arr [])])), none⟩]
      [⟨"b", some (.parsed (Json.obj [("textures", Json.arr [])])), none⟩] rfl).1,
    by rfl⟩

/-- C8: the generation pass is idempotent — running it a second time
over the tree produced by the first run yields the same tree (hence
byte-identical cache files, since the serialized content is recomputed
equal) and the same counters, because cache writes never change any
`index.json`. -/
theorem generation_idempotent (dirs : List Dir) :
    (generate_textures_cache (generate_textures_cache dirs).1).1 =
        (generate_textures_cache dirs).1 ∧
    (generate_textures_cache (generate_textures_cache dirs).1).2 =
        (generate_textures_cache dirs).2 := by
  induction dirs with
  | nil => exact ⟨rfl, rfl⟩
  | cons d ds ih =>
    simp [generate_textures_cache, stepDir_applyWrite, applyWrite_applyWrite,
      ih.1, ih.2]

/-- C9: every `index.json` encountered bumps exactly one of the three
counters, so their sum equals the number of directories holding an
`index.json`. -/
theorem counters_partition (dirs : List Dir) :
    (generate_textures_cache dirs).2.processed_count +
        (generate_textures_cache dirs).2.skipped_count +
        (generate_textures_cache dirs).2.error_count =
      (dirs.filter (fun d => d.index.isSome)).length := by
  induction dirs with
  | nil => rfl
  | cons d ds ih =>
    have hsum := sum_bumpCounts (generate_textures_cache ds).2 (stepDir d).2
    cases hi : d.index with
    | none =>
      have hno : (stepDir d).2 = Outcome.noIndex := (stepDir_noIndex_iff d).mpr hi
      simp only [generate_textures_cache, hsum, hno, List.filter_cons, hi]
      simpa using ih
    | some fr =>
      have hno : ¬ (stepDir d).2 = Outcome.noIndex := by
        rw [stepDir_noIndex_iff, hi]
        simp
      simp only [generate_textures_cache, hsum, if_neg hno, List.filter_cons, hi]
      simp [ih]

/-- Counterexample to C6 as stated: `main` only inspects `sys.argv[1]`
for the help flags, so an invocation whose arguments include `--help` in
a later position does not show help — `["generate.py", "models",
"--help"]` runs the generation pass on `models`. -/
theorem help_flag_anywhere_cex :
    main_action ["generate.py", "models", "--help"] ≠ MainAction.showHelp ∧
    main_action ["generate.py", "models", "--help"] =
      MainAction.runGenerate "models" := by
  exact ⟨by decide, by decide⟩

/-- C6 (amended): whenever the first command-line argument
(`sys.argv[1]`) is `-h` or `--help`, the program shows the usage text
and returns before any scanning, leaving the directory tree untouched. -/
theorem help_first_arg (prog arg1 : String) (rest : List String)
    (dirs : List Dir) (response : String)
    (h : arg1 = "-h" ∨ arg1 = "--help") :
    main_action (prog :: arg1 :: rest) = MainAction.showHelp ∧
    run_main (prog :: arg1 :: rest) dirs response = dirs := by
  have ha : main_action (prog :: arg1 :: rest) = MainAction.showHelp := by
    simp only [main_action]
    rw [if_pos h]
  exact ⟨ha, by simp [run_main, ha]⟩

/-- Witness for C6 (amended): `-h` as the first argument shows help and
leaves a one-directory tree untouched. -/
theorem help_first_arg_witness :
    ("-h" = "-h" ∨ "-h" = "--help") ∧
    main_action ["generate.py", "-h"] = MainAction.showHelp ∧
    run_main ["generate.py", "-h"]
        [⟨"model", some (.parsed (Json.obj [("textures", Json.arr [])])), none⟩] "" =
      [⟨"model", some (.parsed (Json.obj [("textures", Json.arr [])])), none⟩] :=
  ⟨Or.inl rfl,
    help_first_arg "generate.py" "-h" []
      [⟨"model", some (.parsed (Json.obj [("textures", Json.arr [])])), none⟩] ""
      (Or.inl rfl)⟩

/-- C7: the preview scan writes nothing; with an empty recognized set
the program reports and exits without prompting and without side
effects; with a non-empty set it prompts, a negative or empty response
aborts with the tree untouched, and an affirmative response runs the
real generation pass; the empty response is not affirmative. -/
theorem preview_confirmation (dirs : List Dir) (response : String) :
    ((preview_scan dirs).isEmpty = true →
      preview_mode dirs response = ⟨dirs, false, none⟩) ∧
    ((preview_scan dirs).isEmpty = false → affirmative response = false →
      preview_mode dirs response = ⟨dirs, true, none⟩) ∧
    ((preview_scan dirs).isEmpty = false → affirmative response = true →
      preview_mode dirs response =
        ⟨(generate_textures_cache dirs).1, true,
          some (generate_textures_cache dirs).2⟩) ∧
    affirmative "" = false := by
  refine ⟨fun h1 => ?_, fun h1 h2 => ?_, fun h1 h2 => ?_, ?_⟩
  · simp [preview_mode, h1]
  · simp [preview_mode, h1, h2]
  · simp [preview_mode, h1, h2]
  · rfl

/-- Witness for C7: one recognized descriptor and the response `"n"` —
the prompt is shown, nothing is generated and the tree is unchanged. -/
theorem preview_confirmation_witness :
    (preview_scan
        [⟨"model", some (.parsed (Json.obj [("textures", Json.arr [])])), none⟩]).isEmpty =
        false ∧
    affirmative "n" = false ∧
    preview_mode
        [⟨"model", some (.parsed (Json.obj [("textures", Json.arr [])])), none⟩] "n" =
      ⟨[⟨"model", some (.parsed (Json.obj [("textures", Json.arr [])])), none⟩],
        true, none⟩ :=
  ⟨rfl, rfl,
    (preview_confirmation
        [⟨"model", some (.parsed (Json.obj [("textures", Json.arr [])])), none⟩]
        "n").2.1 rfl rfl⟩

end Live2dGen
